import Mathlib

/-!
Verification of the firetrail annotation-persistence layer and section
navigator, shallowly embedded from the JavaScript source
(`FirebaseCanvasStorage` in the storage service module and the carousel
navigation methods of `QuizApp` in `src/js/app.js`).

Modelling conventions:
* JavaScript numbers used as question/part/section identifiers are `Nat`;
  their template-string rendering `${n}` is `natToString` (decimal digits).
* A JavaScript object used as a string-keyed map is an association list
  `List (String × α)` whose insert updates an existing key in place and
  appends a fresh key at the end (JS property-order semantics).
* The SHA-256 digest of `hashString` is kept abstract as a parameter
  `hash : String → String`; every statement quantifies over it.
* Remote (Firestore) state lives alongside the store in `SysState`; each
  remote round-trip takes a `Bool` outcome flag (`true` = the awaited call
  succeeds, `false` = it throws), since the network is external.
* An operation whose `catch` block rethrows is modelled as returning
  `Except String _` paired with the post-state; `Except.error` is a thrown
  exception, and the paired state records what was mutated before the throw.
-/

/-- Decimal rendering of a natural number, modelling JavaScript
number-to-string conversion used by template literals and `toString()`. -/
def natToString (n : Nat) : String :=
  if n = 0 then "0" else String.mk (((Nat.digits 10 n).map Nat.digitChar).reverse)

/-- Write timestamps: `server` is the Firestore `serverTimestamp()` sentinel,
`client t` an ISO string taken from the local clock (abstracted to a `Nat`). -/
inductive Timestamp where
  | server : Timestamp
  | client : Nat → Timestamp
deriving DecidableEq

/-- A raster surface as the store sees it: dimensions plus the PNG data URL
produced by `canvas.toDataURL`. -/
structure Canvas where
  width : Nat
  height : Nat
  dataURL : String
deriving DecidableEq

/-- One persisted annotation record (the Firestore document written by
`saveCanvasAsSVG`, lines 52–63 of the storage module). -/
structure CanvasDoc where
  svg : String
  timestamp : Timestamp
  width : Nat
  height : Nat
  fileId : String
  questionId : String
  partId : String
  sectionId : Option String
  importedAt : Option Timestamp := none
deriving DecidableEq

/-- JS-object lookup: first binding of the key, if any. -/
def objGet (m : List (String × CanvasDoc)) (k : String) : Option CanvasDoc :=
  match m with
  | [] => none
  | (k', v) :: rest => if k' = k then some v else objGet rest k

/-- JS-object assignment `m[k] = v`: update an existing key in place,
otherwise append the new binding at the end (JS property-order semantics). -/
def objInsert : List (String × CanvasDoc) → String → CanvasDoc →
    List (String × CanvasDoc)
  | [], k, v => [(k, v)]
  | (k', v') :: rest, k, v =>
    if k' = k then (k, v) :: rest else (k', v') :: objInsert rest k v

/-- Sequential JS-object assignment of a batch of bindings
(`Object.assign` / a `forEach` of assignments). -/
def objMerge (m entries : List (String × CanvasDoc)) : List (String × CanvasDoc) :=
  entries.foldl (fun acc p => objInsert acc p.1 p.2) m

/-- Remove a binding (JS `delete m[k]`). -/
def objRemove (m : List (String × CanvasDoc)) (k : String) : List (String × CanvasDoc) :=
  m.filter (fun p => p.1 ≠ k)

/-- The `FirebaseCanvasStorage` instance fields (constructor, lines 14–20). -/
structure FirebaseCanvasStorage where
  userId : Option String
  canvasData : List (String × CanvasDoc)
  isLoading : Bool
  hasLoadedFromFirebase : Bool
deriving DecidableEq

/-- Store plus the user's remote `canvases` collection. -/
structure SysState where
  store : FirebaseCanvasStorage
  remote : List (String × CanvasDoc)
deriving DecidableEq

/-- JavaScript truthiness of `!this.userId`: absent or empty string. -/
def userFalsy : Option String → Bool
  | none => true
  | some s => s = ""

/-- `getFileHash` (lines 30–33): hash of `filePath || 'default'`; the empty
string is falsy in JS, so it falls back to the sentinel exactly like an
absent path. -/
def getFileHash (hash : String → String) (filePath : Option String) : String :=
  hash (match filePath with
        | none => "default"
        | some s => if s = "" then "default" else s)

/-- `getCanvasKey` (lines 35–39). -/
def getCanvasKey (questionId partId : Nat) (sectionId : Option Nat) : String :=
  match sectionId with
  | some s => "section_" ++ natToString s ++ "_q" ++ natToString questionId
      ++ "_p" ++ natToString partId
  | none => "q" ++ natToString questionId ++ "_p" ++ natToString partId

/-- The full Firestore document key `` `${fileHash}_${key}` `` used by
save/load/delete (lines 66, 92, 303). -/
def fullCanvasKey (documentId : String) (questionId partId : Nat)
    (sectionId : Option Nat) : String :=
  documentId ++ "_" ++ getCanvasKey questionId partId sectionId

/-- `canvasToSVG` (lines 151–165): an SVG envelope with the canvas
dimensions embedding the raster content as a data-URL image. -/
def canvasToSVG (c : Canvas) : String :=
  "<svg width=\"" ++ natToString c.width ++ "\" height=\"" ++ natToString c.height
    ++ "\" xmlns=\"http://www.w3.org/2000/svg\"><image width=\""
    ++ natToString c.width ++ "\" height=\"" ++ natToString c.height
    ++ "\" href=\"" ++ c.dataURL ++ "\"/></svg>"

/-- The Firestore document built by `saveCanvasAsSVG` (lines 52–63). -/
def savedDoc (hash : String → String) (canvas : Canvas) (questionId partId : Nat)
    (sectionId : Option Nat) (filePath : Option String) : CanvasDoc :=
  { svg := canvasToSVG canvas
    timestamp := .server
    width := canvas.width
    height := canvas.height
    fileId := getFileHash hash filePath
    questionId := natToString questionId
    partId := natToString partId
    sectionId := sectionId.map natToString }

/-- `saveCanvasAsSVG` (lines 41–81). `writeOk` is the outcome of the awaited
`setDoc`; `now` is the local clock used for the cached copy's timestamp. -/
def saveCanvasAsSVG (hash : String → String) (st : SysState) (canvas : Canvas)
    (questionId partId : Nat) (sectionId : Option Nat) (filePath : Option String)
    (writeOk : Bool) (now : Nat) : Option String × SysState :=
  if userFalsy st.store.userId then (none, st)
  else
    let doc := savedDoc hash canvas questionId partId sectionId filePath
    let fullKey := getFileHash hash filePath ++ "_" ++ getCanvasKey questionId partId sectionId
    if writeOk then
      (some (canvasToSVG canvas),
       { st with
           remote := objInsert st.remote fullKey doc
           store := { st.store with
             canvasData := objInsert st.store.canvasData fullKey
               { doc with timestamp := .client now } } })
    else (none, st)

/-- JS truthiness of `canvasDoc.svg` (line 109): non-empty string. -/
def svgTruthy (s : String) : Bool := s ≠ ""

/-- `loadCanvasFromSVG` (lines 83–119). `readOk` is the outcome of the
awaited `getDoc` on a cache miss (unused on a hit, which never goes
remote); `decodeOk` is the outcome of the awaited `loadSVGToCanvas` on
line 110 (its rejection — no embedded image, corrupt data — is caught and
turned into `false`; it is only reached when the record's `svg` is truthy,
and a record fetched from remote stays cached at line 105 even when the
decode then fails). -/
def loadCanvasFromSVG (hash : String → String) (st : SysState) (questionId partId : Nat)
    (sectionId : Option Nat) (filePath : Option String) (readOk decodeOk : Bool) :
    Bool × SysState :=
  if userFalsy st.store.userId then (false, st)
  else
    let fullKey := getFileHash hash filePath ++ "_" ++ getCanvasKey questionId partId sectionId
    match objGet st.store.canvasData fullKey with
    | some doc => (svgTruthy doc.svg && decodeOk, st)
    | none =>
      if readOk then
        match objGet st.remote fullKey with
        | some doc =>
          (svgTruthy doc.svg && decodeOk,
           { st with store := { st.store with
               canvasData := objInsert st.store.canvasData fullKey doc } })
        | none => (false, st)
      else (false, st)

/-- The state right after line 128 (`this.isLoading = true`) of
`loadAllCanvasesForFile`. -/
def loadAllEntry (st : SysState) : SysState :=
  { st with store := { st.store with isLoading := true } }

/-- `loadAllCanvasesForFile` (lines 121–149). `readOk` is the outcome of the
awaited `getDocs`; on success the snapshot is the whole remote collection,
filtered client-side by `fileId`, and the `finally` clears the flag on both
paths. -/
def loadAllCanvasesForFile (hash : String → String) (st : SysState)
    (filePath : Option String) (readOk : Bool) : SysState :=
  if userFalsy st.store.userId then st
  else
    let st1 := loadAllEntry st
    let fileHash := getFileHash hash filePath
    if readOk then
      { st1 with store := { st1.store with
          canvasData := objMerge st1.store.canvasData
            (st.remote.filter (fun p => p.2.fileId = fileHash))
          hasLoadedFromFirebase := true
          isLoading := false } }
    else
      { st1 with store := { st1.store with isLoading := false } }

/-- `exportAllCanvases` (lines 198–233): no identity guard; reads the whole
collection, returns its size, never touches the cache; the `catch`
rethrows. -/
def exportAllCanvases (st : SysState) (readOk : Bool) : Except String Nat × SysState :=
  if readOk then (.ok st.remote.length, st)
  else (.error "Export failed", st)

/-- The parsed JSON payload handed to `importCanvases`; `canvases = none`
models a payload with no top-level `canvases` mapping. -/
structure ImportData where
  canvases : Option (List (String × CanvasDoc))
deriving DecidableEq

/-- `importCanvases` (lines 235–274): rejects when `canvases` is absent;
otherwise batch-writes every entry re-stamped with fresh `timestamp` and
`importedAt`, merges the ORIGINAL parsed records into the cache, and
resolves with the entry count. `commitOk` is the outcome of the awaited
`batch.commit` (the batch is atomic: on failure nothing is written). -/
def importCanvases (st : SysState) (data : ImportData) (commitOk : Bool) :
    Except String Nat × SysState :=
  match data.canvases with
  | none => (.error "Invalid canvas data format", st)
  | some entries =>
    if commitOk then
      (.ok entries.length,
       { st with
           remote := objMerge st.remote
             (entries.map (fun p =>
               (p.1, { p.2 with timestamp := .server, importedAt := some .server })))
           store := { st.store with
             canvasData := objMerge st.store.canvasData entries } })
    else (.error "Failed to import canvas data: commit failed", st)

/-- `clearAllCanvases` (lines 276–297): no identity guard; reads the
snapshot, batch-deletes it, and only then (line 290) empties the cache; the
`catch` rethrows, so on a failed read or commit the cache is untouched. -/
def clearAllCanvases (st : SysState) (readOk commitOk : Bool) :
    Except String Unit × SysState :=
  if readOk then
    if commitOk then
      (.ok (), { st with remote := [], store := { st.store with canvasData := [] } })
    else (.error "Error clearing canvases", st)
  else (.error "Error clearing canvases", st)

/-- `deleteCanvas` (lines 299–317): no identity guard; deletes the remote
document then the cache entry; the `catch` rethrows. -/
def deleteCanvas (hash : String → String) (st : SysState) (questionId partId : Nat)
    (sectionId : Option Nat) (filePath : Option String) (deleteOk : Bool) :
    Except String Unit × SysState :=
  let fullKey := getFileHash hash filePath ++ "_" ++ getCanvasKey questionId partId sectionId
  if deleteOk then
    (.ok (), { st with
        remote := objRemove st.remote fullKey
        store := { st.store with canvasData := objRemove st.store.canvasData fullKey } })
  else (.error "Error deleting canvas", st)

/-- `getAllCanvasKeys` (lines 319–321). -/
def getAllCanvasKeys (st : SysState) : List String :=
  st.store.canvasData.map Prod.fst

/-- `getCanvasCount` (lines 323–325). -/
def getCanvasCount (st : SysState) : Nat :=
  (st.store.canvasData.map Prod.fst).length

/-- `isLoadingFromFirebase` (lines 327–329). -/
def isLoadingFromFirebase (st : SysState) : Bool := st.store.isLoading

/-- `showSection` (app.js lines 342–366): out-of-range indices are ignored,
in-range ones become the current index. `sectionCount` is
`this.latexParser.getSections().length`, fixed for a loaded document. -/
def showSection (sectionCount : Nat) (cur : Int) (index : Int) : Int :=
  if index < 0 ∨ (sectionCount : Int) ≤ index then cur else index

/-- `previousSection` (app.js lines 368–372). -/
def previousSection (sectionCount : Nat) (cur : Int) : Int :=
  if 0 < cur then showSection sectionCount cur (cur - 1) else cur

/-- `nextSection` (app.js lines 374–379). -/
def nextSection (sectionCount : Nat) (cur : Int) : Int :=
  if cur < (sectionCount : Int) - 1 then showSection sectionCount cur (cur + 1) else cur

/-- One navigation transition. -/
inductive NavOp where
  | goTo : Int → NavOp
  | prev : NavOp
  | next : NavOp

/-- Apply one navigation transition to the current index. -/
def navStep (sectionCount : Nat) (cur : Int) : NavOp → Int
  | .goTo i => showSection sectionCount cur i
  | .prev => previousSection sectionCount cur
  | .next => nextSection sectionCount cur


/-! ### Decimal-string lemmas -/

theorem digitChar_isDigit {d : Nat} (h : d < 10) : (Nat.digitChar d).isDigit = true := by
  interval_cases d <;> decide

theorem digitChar_inj_of_lt {a b : Nat} (ha : a < 10) (hb : b < 10)
    (h : Nat.digitChar a = Nat.digitChar b) : a = b := by
  interval_cases a <;> interval_cases b <;> revert h <;> decide

theorem map_digitChar_inj : ∀ (l1 l2 : List Nat), (∀ d ∈ l1, d < 10) →
    (∀ d ∈ l2, d < 10) → l1.map Nat.digitChar = l2.map Nat.digitChar → l1 = l2 := by
  intro l1
  induction l1 with
  | nil =>
    intro l2 _ _ h
    cases l2 with
    | nil => rfl
    | cons b bs => simp at h
  | cons a as ih =>
    intro l2 h1 h2 h
    cases l2 with
    | nil => simp at h
    | cons b bs =>
      simp only [List.map_cons, List.cons.injEq] at h
      have hab : a = b :=
        digitChar_inj_of_lt (h1 a (by simp)) (h2 b (by simp)) h.1
      have : as = bs := ih bs (fun d hd => h1 d (by simp [hd]))
        (fun d hd => h2 d (by simp [hd])) h.2
      simp [hab, this]

theorem natToString_isDigit (n : Nat) : ∀ c ∈ (natToString n).data, c.isDigit = true := by
  intro c hc
  unfold natToString at hc
  by_cases h : n = 0
  · simp [h] at hc
    simp [hc]
  · simp [h] at hc
    obtain ⟨d, hd, rfl⟩ := hc
    exact digitChar_isDigit (Nat.digits_lt_base (by norm_num) hd)

theorem ne_underscore_of_isDigit {c : Char} (h : c.isDigit = true) : c ≠ '_' := by
  rintro rfl
  exact absurd h (by decide)

theorem natToString_inj {m n : Nat} (h : natToString m = natToString n) : m = n := by
  unfold natToString at h
  by_cases hm : m = 0 <;> by_cases hn : n = 0
  · omega
  · simp only [hm, if_pos rfl, if_neg hn] at h
    have hdata : ("0" : String).data = (((Nat.digits 10 n).map Nat.digitChar).reverse) :=
      congrArg String.data h
    have h0 : ['0'] = ((Nat.digits 10 n).map Nat.digitChar).reverse := hdata
    have h1 : (Nat.digits 10 n).map Nat.digitChar = ['0'] := by
      have := congrArg List.reverse h0
      simpa using this.symm
    have h2 : Nat.digits 10 n = [0] := by
      apply map_digitChar_inj _ [0]
      · intro d hd; exact Nat.digits_lt_base (by norm_num) hd
      · intro d hd; simp at hd; omega
      · simpa using h1
    have := Nat.ofDigits_digits 10 n
    rw [h2] at this
    simp [Nat.ofDigits] at this
    omega
  · simp only [hn, if_pos rfl, if_neg hm] at h
    have hdata : (((Nat.digits 10 m).map Nat.digitChar).reverse) = ("0" : String).data :=
      congrArg String.data h
    have h1 : (Nat.digits 10 m).map Nat.digitChar = ['0'] := by
      have := congrArg List.reverse hdata
      simpa using this
    have h2 : Nat.digits 10 m = [0] := by
      apply map_digitChar_inj _ [0]
      · intro d hd; exact Nat.digits_lt_base (by norm_num) hd
      · intro d hd; simp at hd; omega
      · simpa using h1
    have := Nat.ofDigits_digits 10 m
    rw [h2] at this
    simp [Nat.ofDigits] at this
    omega
  · simp only [if_neg hm, if_neg hn] at h
    have hdata : ((Nat.digits 10 m).map Nat.digitChar).reverse
        = ((Nat.digits 10 n).map Nat.digitChar).reverse := congrArg String.data h
    have h1 : (Nat.digits 10 m).map Nat.digitChar = (Nat.digits 10 n).map Nat.digitChar := by
      have := congrArg List.reverse hdata
      simpa using this
    have h2 : Nat.digits 10 m = Nat.digits 10 n :=
      map_digitChar_inj _ _
        (fun d hd => Nat.digits_lt_base (by norm_num) hd)
        (fun d hd => Nat.digits_lt_base (by norm_num) hd) h1
    have hm' := Nat.ofDigits_digits 10 m
    have hn' := Nat.ofDigits_digits 10 n
    rw [h2] at hm'
    omega

theorem natToString_no_underscore (n : Nat) : ∀ c ∈ (natToString n).data, c ≠ '_' :=
  fun c hc => ne_underscore_of_isDigit (natToString_isDigit n c hc)

/-- Splitting a character list at the first underscore: underscore-free
prefixes and the remainders are determined. -/
theorem split_at_underscore : ∀ (a b r r' : List Char), (∀ c ∈ a, c ≠ '_') →
    (∀ c ∈ b, c ≠ '_') → a ++ '_' :: r = b ++ '_' :: r' → a = b ∧ r = r' := by
  intro a
  induction a with
  | nil =>
    intro b r r' _ hb h
    cases b with
    | nil => simpa using h
    | cons c bs =>
      simp only [List.nil_append, List.cons_append, List.cons.injEq] at h
      exact absurd h.1.symm (hb c (by simp))
  | cons c as ih =>
    intro b r r' ha hb h
    cases b with
    | nil =>
      simp only [List.nil_append, List.cons_append, List.cons.injEq] at h
      exact absurd h.1 (ha c (by simp))
    | cons d bs =>
      simp only [List.cons_append, List.cons.injEq] at h
      obtain ⟨rfl, h2⟩ := h
      have := ih bs r r' (fun x hx => ha x (by simp [hx]))
        (fun x hx => hb x (by simp [hx])) h2
      exact ⟨by simp [this.1], this.2⟩

theorem getCanvasKey_data_some (q p a : Nat) :
    (getCanvasKey q p (some a)).data =
      's' :: 'e' :: 'c' :: 't' :: 'i' :: 'o' :: 'n' :: '_' ::
        ((natToString a).data ++ '_' :: 'q' ::((natToString q).data
          ++ '_' :: 'p' ::(natToString p).data)) := by
  show ("section_" ++ natToString a ++ "_q" ++ natToString q
      ++ "_p" ++ natToString p).data = _
  simp [String.data_append]

theorem getCanvasKey_data_none (q p : Nat) :
    (getCanvasKey q p none).data =
      'q' ::((natToString q).data ++ '_' :: 'p' ::(natToString p).data) := by
  show ("q" ++ natToString q ++ "_p" ++ natToString p).data = _
  simp [String.data_append]

/-- `getCanvasKey` is injective on (question, part, optional section)
triples of numeric identifiers. -/
theorem getCanvasKey_inj {q p q' p' : Nat} {s s' : Option Nat}
    (h : getCanvasKey q p s = getCanvasKey q' p' s') :
    q = q' ∧ p = p' ∧ s = s' := by
  cases s with
  | some a =>
    cases s' with
    | some a' =>
      have hd := congrArg String.data h
      rw [getCanvasKey_data_some, getCanvasKey_data_some] at hd
      simp only [List.cons.injEq, true_and] at hd
      obtain ⟨h1, h2⟩ := split_at_underscore _ _ _ _
        (natToString_no_underscore a) (natToString_no_underscore a') hd
      simp only [List.cons.injEq, true_and] at h2
      obtain ⟨h3, h4⟩ := split_at_underscore _ _ _ _
        (natToString_no_underscore q) (natToString_no_underscore q') h2
      simp only [List.cons.injEq, true_and] at h4
      refine ⟨natToString_inj (String.ext h3), natToString_inj (String.ext h4), ?_⟩
      rw [natToString_inj (String.ext h1)]
    | none =>
      have hd := congrArg String.data h
      rw [getCanvasKey_data_some, getCanvasKey_data_none] at hd
      exact absurd (List.head_eq_of_cons_eq hd) (by decide)
  | none =>
    cases s' with
    | some a' =>
      have hd := congrArg String.data h
      rw [getCanvasKey_data_none, getCanvasKey_data_some] at hd
      exact absurd (List.head_eq_of_cons_eq hd) (by decide)
    | none =>
      have hd := congrArg String.data h
      rw [getCanvasKey_data_none, getCanvasKey_data_none] at hd
      simp only [List.cons.injEq, true_and] at hd
      obtain ⟨h3, h4⟩ := split_at_underscore _ _ _ _
        (natToString_no_underscore q) (natToString_no_underscore q') hd
      simp only [List.cons.injEq, true_and] at h4
      exact ⟨natToString_inj (String.ext h3), natToString_inj (String.ext h4), rfl⟩

/-! ### Association-map lemmas -/

theorem objGet_objInsert_self (m : List (String × CanvasDoc)) (k : String) (v : CanvasDoc) :
    objGet (objInsert m k v) k = some v := by
  induction m with
  | nil => simp [objInsert, objGet]
  | cons hd tl ih =>
    by_cases h : hd.1 = k
    · obtain ⟨k', v'⟩ := hd
      simp only at h
      simp [objInsert, h, objGet]
    · obtain ⟨k', v'⟩ := hd
      simp only at h
      simp [objInsert, h, objGet, ih]

theorem objInsert_map_fst_of_mem {m : List (String × CanvasDoc)} {k : String}
    (v : CanvasDoc) (h : k ∈ m.map Prod.fst) :
    (objInsert m k v).map Prod.fst = m.map Prod.fst := by
  induction m with
  | nil => simp at h
  | cons hd tl ih =>
    obtain ⟨k', v'⟩ := hd
    by_cases hk : k' = k
    · simp [objInsert, hk]
    · simp only [List.map_cons, List.mem_cons] at h
      have hmem : k ∈ tl.map Prod.fst := by
        rcases h with h | h
        · exact absurd h.symm hk
        · exact h
      simp [objInsert, hk, ih hmem]

theorem objInsert_map_fst_of_not_mem {m : List (String × CanvasDoc)} {k : String}
    (v : CanvasDoc) (h : k ∉ m.map Prod.fst) :
    (objInsert m k v).map Prod.fst = m.map Prod.fst ++ [k] := by
  induction m with
  | nil => simp [objInsert]
  | cons hd tl ih =>
    obtain ⟨k', v'⟩ := hd
    simp only [List.map_cons, List.mem_cons, not_or] at h
    have hk : k' ≠ k := fun e => h.1 e.symm
    simp [objInsert, hk, ih h.2]

theorem mem_keys_objInsert_self (m : List (String × CanvasDoc)) (k : String)
    (v : CanvasDoc) : k ∈ (objInsert m k v).map Prod.fst := by
  by_cases h : k ∈ m.map Prod.fst
  · rw [objInsert_map_fst_of_mem v h]; exact h
  · rw [objInsert_map_fst_of_not_mem v h]; simp

theorem mem_keys_objInsert_of_mem {m : List (String × CanvasDoc)} {k : String}
    (k' : String) (v : CanvasDoc) (h : k ∈ m.map Prod.fst) :
    k ∈ (objInsert m k' v).map Prod.fst := by
  by_cases h' : k' ∈ m.map Prod.fst
  · rw [objInsert_map_fst_of_mem v h']; exact h
  · rw [objInsert_map_fst_of_not_mem v h']; exact List.mem_append_left _ h

theorem mem_keys_objMerge_of_mem_left {k : String} :
    ∀ (entries m : List (String × CanvasDoc)), k ∈ m.map Prod.fst →
      k ∈ (objMerge m entries).map Prod.fst := by
  intro entries
  induction entries with
  | nil => intro m h; exact h
  | cons e rest ih =>
    intro m h
    exact ih _ (mem_keys_objInsert_of_mem e.1 e.2 h)

theorem mem_keys_objMerge_of_mem_entries {k : String} :
    ∀ (entries m : List (String × CanvasDoc)), k ∈ entries.map Prod.fst →
      k ∈ (objMerge m entries).map Prod.fst := by
  intro entries
  induction entries with
  | nil => intro m h; simp at h
  | cons e rest ih =>
    intro m h
    simp only [List.map_cons, List.mem_cons] at h
    rcases h with h | h
    · subst h
      exact mem_keys_objMerge_of_mem_left rest _ (mem_keys_objInsert_self m e.1 e.2)
    · exact ih _ h

theorem keys_nodup_objInsert {m : List (String × CanvasDoc)} {k : String}
    (v : CanvasDoc) (h : (m.map Prod.fst).Nodup) :
    ((objInsert m k v).map Prod.fst).Nodup := by
  by_cases hk : k ∈ m.map Prod.fst
  · rw [objInsert_map_fst_of_mem v hk]; exact h
  · rw [objInsert_map_fst_of_not_mem v hk]
    simp [List.nodup_append, h, hk]

theorem filter_key_eq_nil_of_not_mem {m : List (String × CanvasDoc)} {k : String}
    (h : k ∉ m.map Prod.fst) : m.filter (fun p => p.1 = k) = [] := by
  induction m with
  | nil => rfl
  | cons hd tl ih =>
    simp only [List.map_cons, List.mem_cons, not_or] at h
    have : ¬(hd.1 = k) := fun e => h.1 e.symm
    simp [List.filter, this, ih h.2]

theorem filter_objInsert_length_one {m : List (String × CanvasDoc)} {k : String}
    (v : CanvasDoc) (h : (m.map Prod.fst).Nodup) :
    ((objInsert m k v).filter (fun p => p.1 = k)).length = 1 := by
  induction m with
  | nil => simp [objInsert]
  | cons hd tl ih =>
    obtain ⟨k', v'⟩ := hd
    simp only [List.map_cons, List.nodup_cons] at h
    by_cases hk : k' = k
    · subst hk
      have : tl.filter (fun p => p.1 = k') = [] :=
        filter_key_eq_nil_of_not_mem h.1
      simp [objInsert, List.filter, this]
    · simp [objInsert, hk, List.filter, ih h.2]

/-! ### Navigator helper lemmas -/

theorem navStep_preserves {n : Nat} {cur : Int} (h0 : 0 ≤ cur) (h1 : cur < (n : Int))
    (op : NavOp) : 0 ≤ navStep n cur op ∧ navStep n cur op < (n : Int) := by
  cases op <;>
    simp only [navStep, showSection, previousSection, nextSection] <;>
    split_ifs <;> omega

theorem navFold_preserves (n : Nat) (ops : List NavOp) :
    ∀ cur : Int, 0 ≤ cur → cur < (n : Int) →
      0 ≤ ops.foldl (navStep n) cur ∧ ops.foldl (navStep n) cur < (n : Int) := by
  induction ops with
  | nil => intro cur h0 h1; exact ⟨h0, h1⟩
  | cons op rest ih =>
    intro cur h0 h1
    have h := navStep_preserves h0 h1 op
    exact ih _ h.1 h.2

/-! ### Claim theorems -/

/-- C1: the composite key equals
`documentId ++ "_" ++ ("section_" ++ s ++ "_q" ++ q ++ "_p" ++ p)` when a
section id is present and `documentId ++ "_" ++ ("q" ++ q ++ "_p" ++ p)`
otherwise — a pure, deterministic string composition — and for a fixed
document, distinct numeric `(sectionId, questionId, partId)` tuples always
yield distinct composite keys. -/
theorem composite_key_formula_and_uniqueness :
    (∀ (docId : String) (q p s : Nat),
      fullCanvasKey docId q p (some s)
        = docId ++ "_" ++ ("section_" ++ natToString s ++ "_q" ++ natToString q
            ++ "_p" ++ natToString p)) ∧
    (∀ (docId : String) (q p : Nat),
      fullCanvasKey docId q p none
        = docId ++ "_" ++ ("q" ++ natToString q ++ "_p" ++ natToString p)) ∧
    (∀ (docId : String) (q p q' p' : Nat) (s s' : Option Nat),
      (s, q, p) ≠ (s', q', p') →
      fullCanvasKey docId q p s ≠ fullCanvasKey docId q' p' s') := by
  refine ⟨fun _ _ _ _ => rfl, fun _ _ _ => rfl, ?_⟩
  intro docId q p q' p' s s' hne heq
  apply hne
  have hdata := congrArg String.data heq
  simp only [fullCanvasKey, String.data_append, List.append_assoc] at hdata
  have hk : (getCanvasKey q p s).data = (getCanvasKey q' p' s').data :=
    List.append_cancel_left (List.append_cancel_left hdata)
  obtain ⟨h1, h2, h3⟩ := getCanvasKey_inj (String.ext hk)
  simp [h1, h2, h3]

/-- C1 witness: both composite-key shapes at concrete identifiers, and
distinctness of the keys of two concrete distinct tuples. -/
theorem composite_key_formula_and_uniqueness_witness :
    fullCanvasKey "doc" 1 2 none
      = "doc" ++ "_" ++ ("q" ++ natToString 1 ++ "_p" ++ natToString 2) ∧
    fullCanvasKey "doc" 1 2 (some 0)
      = "doc" ++ "_" ++ ("section_" ++ natToString 0 ++ "_q" ++ natToString 1
          ++ "_p" ++ natToString 2) ∧
    fullCanvasKey "doc" 1 2 (some 0) ≠ fullCanvasKey "doc" 1 2 none :=
  ⟨composite_key_formula_and_uniqueness.2.1 "doc" 1 2,
   composite_key_formula_and_uniqueness.1 "doc" 1 2 0,
   composite_key_formula_and_uniqueness.2.2 "doc" 1 2 1 2 (some 0) none (by decide)⟩

/-- C10: an empty-string document path is falsy in JS, so `getFileHash`
hashes the fixed sentinel `"default"` for it exactly as for an absent path;
annotations saved under either share the same document identifier. -/
theorem getFileHash_empty_eq_absent :
    ∀ hash : String → String,
      getFileHash hash (some "") = hash "default" ∧
      getFileHash hash none = hash "default" ∧
      getFileHash hash (some "") = getFileHash hash none :=
  fun _ => ⟨rfl, rfl, rfl⟩

/-- C5: with the section count fixed, the current index stays in
`[0, sectionCount)` under every transition sequence; out-of-range `goTo`
is ignored, `previous` at 0 and `next` at the last index are no-ops, and
from index 0 with 3 sections three `next` steps visit 1, 2, 2. -/
theorem navigator_bounds (n : Nat) (cur : Int) (ops : List NavOp)
    (h0 : 0 ≤ cur) (h1 : cur < (n : Int)) :
    (0 ≤ ops.foldl (navStep n) cur ∧ ops.foldl (navStep n) cur < (n : Int)) ∧
    (∀ i : Int, i < 0 ∨ (n : Int) ≤ i → showSection n cur i = cur) ∧
    (previousSection n 0 = 0) ∧
    (cur = (n : Int) - 1 → nextSection n cur = cur) ∧
    (nextSection 3 0 = 1 ∧ nextSection 3 1 = 2 ∧ nextSection 3 2 = 2) := by
  refine ⟨navFold_preserves n ops cur h0 h1, ?_, ?_, ?_, by decide⟩
  · intro i hi
    simp [showSection, hi]
  · simp [previousSection]
  · intro hcur
    simp only [nextSection]
    split_ifs with h
    · omega
    · rfl

/-- C5 witness: 3 sections starting at 0; three `next` transitions keep the
index in range (ending at 2 per the scenario conjunct). -/
theorem navigator_bounds_witness :
    (0 ≤ [NavOp.next, NavOp.next, NavOp.next].foldl (navStep 3) 0 ∧
      [NavOp.next, NavOp.next, NavOp.next].foldl (navStep 3) 0 < (3 : Int)) ∧
    (∀ i : Int, i < 0 ∨ (3 : Int) ≤ i → showSection 3 0 i = 0) ∧
    (previousSection 3 0 = 0) ∧
    ((0 : Int) = (3 : Int) - 1 → nextSection 3 0 = 0) ∧
    (nextSection 3 0 = 1 ∧ nextSection 3 1 = 2 ∧ nextSection 3 2 = 2) :=
  navigator_bounds 3 0 [NavOp.next, NavOp.next, NavOp.next] (by decide) (by decide)

/-- C9: `clearAllCanvases` empties the cache only after the batch delete
commits; when the snapshot read or the commit fails the error is rethrown
and the cached keys and count are exactly as before the call. -/
theorem clearAll_atomicity (st : SysState) (b : Bool) :
    (clearAllCanvases st false b = (.error "Error clearing canvases", st)) ∧
    (clearAllCanvases st true false = (.error "Error clearing canvases", st)) ∧
    (getAllCanvasKeys (clearAllCanvases st false b).2 = getAllCanvasKeys st ∧
      getCanvasCount (clearAllCanvases st false b).2 = getCanvasCount st ∧
      getAllCanvasKeys (clearAllCanvases st true false).2 = getAllCanvasKeys st ∧
      getCanvasCount (clearAllCanvases st true false).2 = getCanvasCount st) ∧
    ((clearAllCanvases st true true).1 = .ok () ∧
      (clearAllCanvases st true true).2.store.canvasData = [] ∧
      (clearAllCanvases st true true).2.remote = []) := by
  refine ⟨?_, ?_, ⟨?_, ?_, ?_, ?_⟩, ?_, ?_, ?_⟩ <;> simp [clearAllCanvases]

/-- C2: with a user identity set, a successful save writes the record to
the remote store, inserts a locally-timestamped copy into the cache under
the composite key, and returns the encoded vector image; with no (or an
empty) user identity it returns the `null` sentinel touching neither
remote nor cache; and a failed remote write is caught, returning `null`
with no state change instead of propagating. -/
theorem save_behavior (hash : String → String) (stNo stYes : SysState)
    (canvas : Canvas) (q p : Nat) (s : Option Nat) (fp : Option String)
    (wOk : Bool) (now : Nat)
    (hno : userFalsy stNo.store.userId = true)
    (hyes : userFalsy stYes.store.userId = false) :
    (saveCanvasAsSVG hash stNo canvas q p s fp wOk now = (none, stNo)) ∧
    (saveCanvasAsSVG hash stYes canvas q p s fp true now =
      (some (canvasToSVG canvas),
       { stYes with
           remote := objInsert stYes.remote
             (getFileHash hash fp ++ "_" ++ getCanvasKey q p s)
             (savedDoc hash canvas q p s fp)
           store := { stYes.store with
             canvasData := objInsert stYes.store.canvasData
               (getFileHash hash fp ++ "_" ++ getCanvasKey q p s)
               { savedDoc hash canvas q p s fp with timestamp := .client now } } })) ∧
    (saveCanvasAsSVG hash stYes canvas q p s fp false now = (none, stYes)) := by
  refine ⟨?_, ?_, ?_⟩ <;> simp [saveCanvasAsSVG, hno, hyes]

/-- C2 witness: concrete stores with and without an identity. -/
theorem save_behavior_witness :
    (saveCanvasAsSVG (fun s => s) ⟨⟨none, [], false, false⟩, []⟩ ⟨4, 3, "img"⟩
        1 2 none none true 7 = (none, ⟨⟨none, [], false, false⟩, []⟩)) ∧
    (saveCanvasAsSVG (fun s => s) ⟨⟨some "u", [], false, false⟩, []⟩ ⟨4, 3, "img"⟩
        1 2 none none true 7 =
      (some (canvasToSVG ⟨4, 3, "img"⟩),
       { (⟨⟨some "u", [], false, false⟩, []⟩ : SysState) with
           remote := objInsert []
             (getFileHash (fun s => s) none ++ "_" ++ getCanvasKey 1 2 none)
             (savedDoc (fun s => s) ⟨4, 3, "img"⟩ 1 2 none none)
           store := { (⟨some "u", [], false, false⟩ : FirebaseCanvasStorage) with
             canvasData := objInsert []
               (getFileHash (fun s => s) none ++ "_" ++ getCanvasKey 1 2 none)
               { savedDoc (fun s => s) ⟨4, 3, "img"⟩ 1 2 none none with
                   timestamp := .client 7 } } })) ∧
    (saveCanvasAsSVG (fun s => s) ⟨⟨some "u", [], false, false⟩, []⟩ ⟨4, 3, "img"⟩
        1 2 none none false 7 = (none, ⟨⟨some "u", [], false, false⟩, []⟩)) :=
  save_behavior (fun s => s) ⟨⟨none, [], false, false⟩, []⟩
    ⟨⟨some "u", [], false, false⟩, []⟩ ⟨4, 3, "img"⟩ 1 2 none none true 7
    rfl (by decide)

/-- C7: `loadAllCanvasesForFile` raises the loading flag on entry, merges
into the cache exactly the remote records whose `fileId` matches the
derived document identifier, and leaves the flag cleared on both the
success and failure exit paths; on an empty remote collection the cache
count is unchanged and loading is false afterwards. -/
theorem loadAll_behavior (hash : String → String) (st : SysState)
    (fp : Option String) (hu : userFalsy st.store.userId = false) :
    ((loadAllEntry st).store.isLoading = true) ∧
    (∀ rOk : Bool, isLoadingFromFirebase (loadAllCanvasesForFile hash st fp rOk) = false) ∧
    ((loadAllCanvasesForFile hash st fp true).store.canvasData
       = objMerge st.store.canvasData
           (st.remote.filter (fun pr => pr.2.fileId = getFileHash hash fp))) ∧
    ((loadAllCanvasesForFile hash st fp true).store.hasLoadedFromFirebase = true) ∧
    ((loadAllCanvasesForFile hash st fp false).store.canvasData
       = st.store.canvasData) ∧
    (st.remote = [] →
      getCanvasCount (loadAllCanvasesForFile hash st fp true) = getCanvasCount st ∧
      isLoadingFromFirebase (loadAllCanvasesForFile hash st fp true) = false) := by
  refine ⟨rfl, ?_, ?_, ?_, ?_, ?_⟩
  · intro rOk
    cases rOk <;> simp [loadAllCanvasesForFile, loadAllEntry, isLoadingFromFirebase, hu]
  · simp [loadAllCanvasesForFile, loadAllEntry, hu]
  · simp [loadAllCanvasesForFile, loadAllEntry, hu]
  · simp [loadAllCanvasesForFile, loadAllEntry, hu]
  · intro hr
    constructor
    · simp [loadAllCanvasesForFile, loadAllEntry, hu, hr, getCanvasCount, objMerge]
    · simp [loadAllCanvasesForFile, loadAllEntry, isLoadingFromFirebase, hu]

/-- C7 witness: a store with an identity and an empty remote collection. -/
theorem loadAll_behavior_witness :
    ((loadAllEntry ⟨⟨some "u", [], false, false⟩, []⟩).store.isLoading = true) ∧
    (∀ rOk : Bool, isLoadingFromFirebase
        (loadAllCanvasesForFile (fun s => s) ⟨⟨some "u", [], false, false⟩, []⟩
          none rOk) = false) ∧
    ((loadAllCanvasesForFile (fun s => s) ⟨⟨some "u", [], false, false⟩, []⟩
        none true).store.canvasData
       = objMerge []
           (List.filter (fun pr => pr.2.fileId = getFileHash (fun s => s) none) [])) ∧
    ((loadAllCanvasesForFile (fun s => s) ⟨⟨some "u", [], false, false⟩, []⟩
        none true).store.hasLoadedFromFirebase = true) ∧
    ((loadAllCanvasesForFile (fun s => s) ⟨⟨some "u", [], false, false⟩, []⟩
        none false).store.canvasData = []) ∧
    (([] : List (String × CanvasDoc)) = [] →
      getCanvasCount (loadAllCanvasesForFile (fun s => s)
          ⟨⟨some "u", [], false, false⟩, []⟩ none true)
        = getCanvasCount ⟨⟨some "u", [], false, false⟩, []⟩ ∧
      isLoadingFromFirebase (loadAllCanvasesForFile (fun s => s)
          ⟨⟨some "u", [], false, false⟩, []⟩ none true) = false) :=
  loadAll_behavior (fun s => s) ⟨⟨some "u", [], false, false⟩, []⟩ none (by decide)

/-- C8: saving twice with the same surface and the same
(question, part, section, path) leaves exactly one cache entry under the
composite key, holding the latest encoding, and the cached key set and
count after the second save equal those after the first. -/
theorem save_idempotent_on_cache (hash : String → String) (st : SysState)
    (canvas : Canvas) (q p : Nat) (s : Option Nat) (fp : Option String) (now : Nat)
    (hu : userFalsy st.store.userId = false)
    (hnodup : (st.store.canvasData.map Prod.fst).Nodup) :
    getAllCanvasKeys
        (saveCanvasAsSVG hash
          (saveCanvasAsSVG hash st canvas q p s fp true now).2
          canvas q p s fp true now).2
      = getAllCanvasKeys (saveCanvasAsSVG hash st canvas q p s fp true now).2 ∧
    getCanvasCount
        (saveCanvasAsSVG hash
          (saveCanvasAsSVG hash st canvas q p s fp true now).2
          canvas q p s fp true now).2
      = getCanvasCount (saveCanvasAsSVG hash st canvas q p s fp true now).2 ∧
    objGet (saveCanvasAsSVG hash
          (saveCanvasAsSVG hash st canvas q p s fp true now).2
          canvas q p s fp true now).2.store.canvasData
        (getFileHash hash fp ++ "_" ++ getCanvasKey q p s)
      = some { savedDoc hash canvas q p s fp with timestamp := .client now } ∧
    ((saveCanvasAsSVG hash
          (saveCanvasAsSVG hash st canvas q p s fp true now).2
          canvas q p s fp true now).2.store.canvasData.filter
        (fun pr => pr.1 = getFileHash hash fp ++ "_" ++ getCanvasKey q p s)).length
      = 1 := by
  have hcache1 : (saveCanvasAsSVG hash st canvas q p s fp true now).2.store.canvasData
      = objInsert st.store.canvasData
          (getFileHash hash fp ++ "_" ++ getCanvasKey q p s)
          { savedDoc hash canvas q p s fp with timestamp := .client now } := by
    simp [saveCanvasAsSVG, hu]
  have hu1 : userFalsy (saveCanvasAsSVG hash st canvas q p s fp true now).2.store.userId
      = false := by
    simp [saveCanvasAsSVG, hu]
  have hcache2 : (saveCanvasAsSVG hash
        (saveCanvasAsSVG hash st canvas q p s fp true now).2
        canvas q p s fp true now).2.store.canvasData
      = objInsert (saveCanvasAsSVG hash st canvas q p s fp true now).2.store.canvasData
          (getFileHash hash fp ++ "_" ++ getCanvasKey q p s)
          { savedDoc hash canvas q p s fp with timestamp := .client now } := by
    conv =>
      lhs
      rw [saveCanvasAsSVG]
    simp [hu1]
  have hmem1 : (getFileHash hash fp ++ "_" ++ getCanvasKey q p s)
      ∈ (saveCanvasAsSVG hash st canvas q p s fp true now).2.store.canvasData.map Prod.fst := by
    rw [hcache1]
    exact mem_keys_objInsert_self _ _ _
  have hnodup1 : ((saveCanvasAsSVG hash st canvas q p s fp true now).2.store.canvasData.map
      Prod.fst).Nodup := by
    rw [hcache1]
    exact keys_nodup_objInsert _ hnodup
  refine ⟨?_, ?_, ?_, ?_⟩
  · simp only [getAllCanvasKeys, hcache2]
    exact objInsert_map_fst_of_mem _ hmem1
  · simp only [getCanvasCount, hcache2]
    rw [objInsert_map_fst_of_mem _ hmem1]
  · rw [hcache2]
    exact objGet_objInsert_self _ _ _
  · rw [hcache2]
    exact filter_objInsert_length_one _ hnodup1

/-- C8 witness: two identical saves on a concrete empty store. -/
theorem save_idempotent_on_cache_witness :
    getAllCanvasKeys
        (saveCanvasAsSVG (fun s => s)
          (saveCanvasAsSVG (fun s => s) ⟨⟨some "u", [], false, false⟩, []⟩
            ⟨4, 3, "img"⟩ 1 2 none none true 7).2
          ⟨4, 3, "img"⟩ 1 2 none none true 7).2
      = getAllCanvasKeys (saveCanvasAsSVG (fun s => s)
          ⟨⟨some "u", [], false, false⟩, []⟩ ⟨4, 3, "img"⟩ 1 2 none none true 7).2 ∧
    getCanvasCount
        (saveCanvasAsSVG (fun s => s)
          (saveCanvasAsSVG (fun s => s) ⟨⟨some "u", [], false, false⟩, []⟩
            ⟨4, 3, "img"⟩ 1 2 none none true 7).2
          ⟨4, 3, "img"⟩ 1 2 none none true 7).2
      = getCanvasCount (saveCanvasAsSVG (fun s => s)
          ⟨⟨some "u", [], false, false⟩, []⟩ ⟨4, 3, "img"⟩ 1 2 none none true 7).2 ∧
    objGet (saveCanvasAsSVG (fun s => s)
          (saveCanvasAsSVG (fun s => s) ⟨⟨some "u", [], false, false⟩, []⟩
            ⟨4, 3, "img"⟩ 1 2 none none true 7).2
          ⟨4, 3, "img"⟩ 1 2 none none true 7).2.store.canvasData
        (getFileHash (fun s => s) none ++ "_" ++ getCanvasKey 1 2 none)
      = some { savedDoc (fun s => s) ⟨4, 3, "img"⟩ 1 2 none none with
                 timestamp := .client 7 } ∧
    ((saveCanvasAsSVG (fun s => s)
          (saveCanvasAsSVG (fun s => s) ⟨⟨some "u", [], false, false⟩, []⟩
            ⟨4, 3, "img"⟩ 1 2 none none true 7).2
          ⟨4, 3, "img"⟩ 1 2 none none true 7).2.store.canvasData.filter
        (fun pr => pr.1 = getFileHash (fun s => s) none ++ "_" ++ getCanvasKey 1 2 none)).length
      = 1 :=
  save_idempotent_on_cache (fun s => s) ⟨⟨some "u", [], false, false⟩, []⟩
    ⟨4, 3, "img"⟩ 1 2 none none 7 (by decide) (by simp)

/-- C6: `importCanvases` rejects with the format error when the parsed
payload has no top-level `canvases` mapping, leaving remote store and cache
unchanged; otherwise (with the batch commit succeeding) it batch-writes
every entry re-stamped with fresh write and import timestamps, merges the
parsed mapping into the cache, and resolves with the number of entries
written — every imported key subsequently appears in `getAllCanvasKeys`. -/
theorem import_behavior (st : SysState) (entries : List (String × CanvasDoc))
    (b : Bool) :
    (importCanvases st ⟨none⟩ b = (.error "Invalid canvas data format", st)) ∧
    (importCanvases st ⟨some entries⟩ true =
      (.ok entries.length,
       { st with
           remote := objMerge st.remote
             (entries.map (fun pr =>
               (pr.1, { pr.2 with timestamp := .server, importedAt := some .server })))
           store := { st.store with
             canvasData := objMerge st.store.canvasData entries } })) ∧
    (∀ k, k ∈ entries.map Prod.fst →
      k ∈ getAllCanvasKeys (importCanvases st ⟨some entries⟩ true).2) := by
  refine ⟨rfl, rfl, ?_⟩
  intro k hk
  simp only [importCanvases, getAllCanvasKeys]
  exact mem_keys_objMerge_of_mem_entries entries _ hk

/-- C6 witness (the spec scenario): importing a payload with two canvases
`a`, `b` resolves with count 2 and both keys appear in the cached key
list. -/
theorem import_behavior_witness :
    (importCanvases ⟨⟨some "u", [], false, false⟩, []⟩ ⟨none⟩ true
      = (.error "Invalid canvas data format", ⟨⟨some "u", [], false, false⟩, []⟩)) ∧
    ((importCanvases ⟨⟨some "u", [], false, false⟩, []⟩
        ⟨some [("a", ⟨"s1", .client 0, 1, 1, "f", "1", "1", none, none⟩),
               ("b", ⟨"s2", .client 0, 1, 1, "f", "1", "2", none, none⟩)]⟩ true).1
      = .ok 2) ∧
    "a" ∈ getAllCanvasKeys (importCanvases ⟨⟨some "u", [], false, false⟩, []⟩
        ⟨some [("a", ⟨"s1", .client 0, 1, 1, "f", "1", "1", none, none⟩),
               ("b", ⟨"s2", .client 0, 1, 1, "f", "1", "2", none, none⟩)]⟩ true).2 ∧
    "b" ∈ getAllCanvasKeys (importCanvases ⟨⟨some "u", [], false, false⟩, []⟩
        ⟨some [("a", ⟨"s1", .client 0, 1, 1, "f", "1", "1", none, none⟩),
               ("b", ⟨"s2", .client 0, 1, 1, "f", "1", "2", none, none⟩)]⟩ true).2 := by
  have h := import_behavior ⟨⟨some "u", [], false, false⟩, []⟩
    [("a", ⟨"s1", .client 0, 1, 1, "f", "1", "1", none, none⟩),
     ("b", ⟨"s2", .client 0, 1, 1, "f", "1", "2", none, none⟩)] true
  refine ⟨h.1, ?_, ?_, ?_⟩
  · rw [h.2.1]
    rfl
  · exact h.2.2 "a" (by simp)
  · exact h.2.2 "b" (by simp)

/-- C3 counterexample: the claim "load returns true when the composite
key is present in the cache" fails twice over: a cached record with an
empty `svg` returns `false` (line 109 requires `canvasDoc.svg` truthy),
and a cached record with a non-empty but undecodable `svg` also returns
`false` (line 110's awaited decode rejects and the catch converts the
rejection to `false`). -/
theorem load_cache_hit_returns_false_counterexample :
    ((objGet
        [((getFileHash (fun s => s) none ++ "_" ++ getCanvasKey 1 1 none),
          ⟨"", .server, 1, 1, "f", "1", "1", none, none⟩)]
        (getFileHash (fun s => s) none ++ "_" ++ getCanvasKey 1 1 none)).isSome
      = true ∧
     (loadCanvasFromSVG (fun s => s)
        ⟨⟨some "u",
          [((getFileHash (fun s => s) none ++ "_" ++ getCanvasKey 1 1 none),
            ⟨"", .server, 1, 1, "f", "1", "1", none, none⟩)],
          false, false⟩, []⟩
        1 1 none none true true).1 = false) ∧
    ((objGet
        [((getFileHash (fun s => s) none ++ "_" ++ getCanvasKey 1 1 none),
          ⟨"x", .server, 1, 1, "f", "1", "1", none, none⟩)]
        (getFileHash (fun s => s) none ++ "_" ++ getCanvasKey 1 1 none)).isSome
      = true ∧
     svgTruthy "x" = true ∧
     (loadCanvasFromSVG (fun s => s)
        ⟨⟨some "u",
          [((getFileHash (fun s => s) none ++ "_" ++ getCanvasKey 1 1 none),
            ⟨"x", .server, 1, 1, "f", "1", "1", none, none⟩)],
          false, false⟩, []⟩
        1 1 none none true false).1 = false) := by
  refine ⟨⟨?_, ?_⟩, ?_, ?_, ?_⟩
  · simp [objGet]
  · simp [loadCanvasFromSVG, userFalsy, objGet, svgTruthy]
  · simp [objGet]
  · simp [svgTruthy]
  · simp [loadCanvasFromSVG, userFalsy, objGet, svgTruthy]

/-- C3 amended: with a user identity set, load returns `true` on a cache
hit exactly when the record's vector image is non-empty and the awaited
decode into the surface succeeds, without a remote read (an empty image or
a failing decode yields `false`, still without a remote read); on a cache
miss it performs one remote read, caches a present record (keeping it
cached even when the decode then fails) and returns `true` iff its image
is non-empty and decodes; it returns `false` when the key is absent from
both cache and remote; and a failing remote read also yields `false`
rather than a thrown error. -/
theorem load_behavior (hash : String → String) (st : SysState) (q p : Nat)
    (s : Option Nat) (fp : Option String)
    (hu : userFalsy st.store.userId = false) :
    (∀ doc, objGet st.store.canvasData
        (getFileHash hash fp ++ "_" ++ getCanvasKey q p s) = some doc →
      ∀ rOk dOk : Bool, loadCanvasFromSVG hash st q p s fp rOk dOk
        = (svgTruthy doc.svg && dOk, st)) ∧
    (objGet st.store.canvasData
        (getFileHash hash fp ++ "_" ++ getCanvasKey q p s) = none →
      ∀ doc, objGet st.remote
          (getFileHash hash fp ++ "_" ++ getCanvasKey q p s) = some doc →
        ∀ dOk : Bool, loadCanvasFromSVG hash st q p s fp true dOk
          = (svgTruthy doc.svg && dOk,
             { st with store := { st.store with
                 canvasData := objInsert st.store.canvasData
                   (getFileHash hash fp ++ "_" ++ getCanvasKey q p s) doc } })) ∧
    (objGet st.store.canvasData
        (getFileHash hash fp ++ "_" ++ getCanvasKey q p s) = none →
      objGet st.remote (getFileHash hash fp ++ "_" ++ getCanvasKey q p s) = none →
      ∀ dOk : Bool, loadCanvasFromSVG hash st q p s fp true dOk = (false, st)) ∧
    (objGet st.store.canvasData
        (getFileHash hash fp ++ "_" ++ getCanvasKey q p s) = none →
      ∀ dOk : Bool, loadCanvasFromSVG hash st q p s fp false dOk = (false, st)) := by
  refine ⟨?_, ?_, ?_, ?_⟩
  · intro doc hdoc rOk dOk
    simp [loadCanvasFromSVG, hu, hdoc]
  · intro hmiss doc hdoc dOk
    simp [loadCanvasFromSVG, hu, hmiss, hdoc]
  · intro hmiss hmiss' dOk
    simp [loadCanvasFromSVG, hu, hmiss, hmiss']
  · intro hmiss dOk
    simp [loadCanvasFromSVG, hu, hmiss]

/-- C3 witness: a concrete cache hit with a non-empty image and a
succeeding decode returns `true` without touching the state; the same hit
with a failing decode returns `false`; and a concrete double miss returns
`false`. -/
theorem load_behavior_witness :
    loadCanvasFromSVG (fun s => s)
        ⟨⟨some "u",
          [((getFileHash (fun s => s) none ++ "_" ++ getCanvasKey 1 1 none),
            ⟨"x", .server, 1, 1, "f", "1", "1", none, none⟩)],
          false, false⟩, []⟩
        1 1 none none true true
      = (true,
         ⟨⟨some "u",
           [((getFileHash (fun s => s) none ++ "_" ++ getCanvasKey 1 1 none),
             ⟨"x", .server, 1, 1, "f", "1", "1", none, none⟩)],
           false, false⟩, []⟩) ∧
    loadCanvasFromSVG (fun s => s)
        ⟨⟨some "u",
          [((getFileHash (fun s => s) none ++ "_" ++ getCanvasKey 1 1 none),
            ⟨"x", .server, 1, 1, "f", "1", "1", none, none⟩)],
          false, false⟩, []⟩
        1 1 none none true false
      = (false,
         ⟨⟨some "u",
           [((getFileHash (fun s => s) none ++ "_" ++ getCanvasKey 1 1 none),
             ⟨"x", .server, 1, 1, "f", "1", "1", none, none⟩)],
           false, false⟩, []⟩) ∧
    loadCanvasFromSVG (fun s => s) ⟨⟨some "u", [], false, false⟩, []⟩
        1 1 none none true true
      = (false, ⟨⟨some "u", [], false, false⟩, []⟩) := by
  refine ⟨?_, ?_, ?_⟩
  · have h := (load_behavior (fun s => s)
      ⟨⟨some "u",
        [((getFileHash (fun s => s) none ++ "_" ++ getCanvasKey 1 1 none),
          ⟨"x", .server, 1, 1, "f", "1", "1", none, none⟩)],
        false, false⟩, []⟩ 1 1 none none (by decide)).1
      ⟨"x", .server, 1, 1, "f", "1", "1", none, none⟩ (by simp [objGet]) true true
    simpa [svgTruthy] using h
  · have h := (load_behavior (fun s => s)
      ⟨⟨some "u",
        [((getFileHash (fun s => s) none ++ "_" ++ getCanvasKey 1 1 none),
          ⟨"x", .server, 1, 1, "f", "1", "1", none, none⟩)],
        false, false⟩, []⟩ 1 1 none none (by decide)).1
      ⟨"x", .server, 1, 1, "f", "1", "1", none, none⟩ (by simp [objGet]) true false
    simpa [svgTruthy] using h
  · exact (load_behavior (fun s => s) ⟨⟨some "u", [], false, false⟩, []⟩
      1 1 none none (by decide)).2.2.1 rfl rfl true

/-- C4 counterexample: with no user identity set, `exportAllCanvases`,
`clearAllCanvases`, `deleteCanvas` and `importCanvases` have no guard; when
their remote call fails (as the Firestore path built from an undefined user
does) the `catch` rethrows, so the call throws instead of returning a
defined "unavailable" result. -/
theorem no_guard_ops_throw_counterexample :
    (exportAllCanvases ⟨⟨none, [], false, false⟩, []⟩ false).1
      = .error "Export failed" ∧
    (clearAllCanvases ⟨⟨none, [], false, false⟩, []⟩ false false).1
      = .error "Error clearing canvases" ∧
    (deleteCanvas (fun s => s) ⟨⟨none, [], false, false⟩, []⟩ 1 1 none none false).1
      = .error "Error deleting canvas" ∧
    (importCanvases ⟨⟨none, [], false, false⟩, []⟩
        ⟨some [("a", ⟨"s", .client 0, 1, 1, "f", "1", "1", none, none⟩)]⟩ false).1
      = .error "Failed to import canvas data: commit failed" :=
  ⟨rfl, rfl, rfl, rfl⟩

/-- C4 amended: with an absent or empty user identity, `save`, `load` and
`loadAllForDocument` return their defined "unavailable" results (`null`,
`false`, no-op) without throwing and without touching remote or cache;
`exportAll`, `importAll`, `clearAll` and `deleteOne`, by contrast, perform
no identity guard and propagate remote failures to the caller as thrown
errors. -/
theorem no_user_behavior (hash : String → String) (st : SysState) (canvas : Canvas)
    (q p : Nat) (s : Option Nat) (fp : Option String) (wOk rOk dOk b : Bool) (now : Nat)
    (hu : userFalsy st.store.userId = true) :
    (saveCanvasAsSVG hash st canvas q p s fp wOk now = (none, st)) ∧
    (loadCanvasFromSVG hash st q p s fp rOk dOk = (false, st)) ∧
    (loadAllCanvasesForFile hash st fp rOk = st) ∧
    ((exportAllCanvases st false).1 = .error "Export failed") ∧
    ((importCanvases st ⟨none⟩ b).1 = .error "Invalid canvas data format") ∧
    ((clearAllCanvases st false b).1 = .error "Error clearing canvases") ∧
    ((deleteCanvas hash st q p s fp false).1 = .error "Error deleting canvas") := by
  refine ⟨?_, ?_, ?_, rfl, rfl, ?_, rfl⟩
  · simp [saveCanvasAsSVG, hu]
  · simp [loadCanvasFromSVG, hu]
  · simp [loadAllCanvasesForFile, hu]
  · simp [clearAllCanvases]

/-- C4 witness: a concrete store constructed without a user identity. -/
theorem no_user_behavior_witness :
    (saveCanvasAsSVG (fun s => s) ⟨⟨none, [], false, false⟩, []⟩ ⟨4, 3, "img"⟩
        1 2 none none true 7 = (none, ⟨⟨none, [], false, false⟩, []⟩)) ∧
    (loadCanvasFromSVG (fun s => s) ⟨⟨none, [], false, false⟩, []⟩
        1 2 none none true true = (false, ⟨⟨none, [], false, false⟩, []⟩)) ∧
    (loadAllCanvasesForFile (fun s => s) ⟨⟨none, [], false, false⟩, []⟩ none true
      = ⟨⟨none, [], false, false⟩, []⟩) ∧
    ((exportAllCanvases ⟨⟨none, [], false, false⟩, []⟩ false).1
      = .error "Export failed") ∧
    ((importCanvases ⟨⟨none, [], false, false⟩, []⟩ ⟨none⟩ true).1
      = .error "Invalid canvas data format") ∧
    ((clearAllCanvases ⟨⟨none, [], false, false⟩, []⟩ false true).1
      = .error "Error clearing canvases") ∧
    ((deleteCanvas (fun s => s) ⟨⟨none, [], false, false⟩, []⟩ 1 2 none none false).1
      = .error "Error deleting canvas") :=
  no_user_behavior (fun s => s) ⟨⟨none, [], false, false⟩, []⟩ ⟨4, 3, "img"⟩
    1 2 none none true true true true 7 rfl
